import Mathlib

/-!
Shallow embedding of the BacklineMD backend (FastAPI + MongoDB document store)
for the purpose of checking the workflow/task-lifecycle specification against
the code.  The MongoDB collections are modelled as lists kept in insertion
order (Mongo natural order for this workload); `insert_one` appends,
`update_one` rewrites the first matching document, `find_one` returns the
first matching document.  `datetime.now` timestamps are modelled as `Nat`
instants passed in by the caller; uuid identifiers as a fresh-id counter in
the store.  Record fields not inspected by any verified property (titles,
descriptions, timestamps of no claim, file metadata, ...) are elided.
-/

namespace BMD

def DEFAULT_TENANT : String := "hackathon-demo"

/-- Patient document (src/server.py:151, src/mcp_server.py:207,
src/backend/models.py).  `email`/`phone` model `contact.email`/`contact.phone`. -/
structure Patient where
  _id : Nat
  tenant_id : String
  first_name : String
  last_name : String
  email : String
  phone : String
  status : String
  tasks_count : Nat
  appointments_count : Nat
  deriving Repr, DecidableEq

/-- Task `_id`s: route handlers use fresh uuid4 strings, the workflow
automation module derives the id from the patient id
(`TASK-EXTRACT-` plus the patient id, src/workflow_automation.py:82). -/
inductive TaskId where
  | fresh (n : Nat)
  | extract (pid : Nat)
  deriving Repr, DecidableEq

/-- Task document (src/server.py:929 and friends).  `kind` is optional because
the tasks inserted by src/workflow_automation.py carry no `kind` key. -/
structure Task where
  _id : TaskId
  tenant_id : String
  patient_id : Nat
  kind : Option String
  state : String
  priority : String
  confidence_score : Rat
  doc_id : Option Nat
  deriving Repr, DecidableEq

/-- Document record (src/server.py:687).  `extracted_confidence` models
`extracted.confidence` once ingestion has run. -/
structure Document where
  _id : Nat
  tenant_id : String
  patient_id : Nat
  kind : String
  status : String
  extracted_confidence : Option Rat
  deriving Repr, DecidableEq

/-- Consent form record (src/server.py:233, src/mcp_server.py:287). -/
structure ConsentForm where
  _id : Nat
  tenant_id : String
  patient_id : Nat
  title : String
  status : String
  deriving Repr, DecidableEq

/-- Appointment record (src/server.py:1297). -/
structure Appointment where
  _id : Nat
  tenant_id : String
  patient_id : Nat
  status : String
  deriving Repr, DecidableEq

/-- Insurance claim record (src/server.py:1128, src/mcp_server.py:860).
`amount_cents` models the `int(amount * 100)` cents field. -/
structure Claim where
  _id : Nat
  tenant_id : String
  patient_id : Nat
  amount_cents : Int
  amount_display : Rat
  status : String
  last_event_at : Nat
  deriving Repr, DecidableEq

/-- Claim audit event (src/server.py:1151, src/mcp_server.py:883,945).
`atTime` models the source field `at`. -/
structure ClaimEvent where
  _id : Nat
  tenant_id : String
  claim_id : Nat
  event_type : String
  atTime : Nat
  deriving Repr, DecidableEq

/-- Summary payload returned by the summary endpoint
(src/backend/server.py:321). -/
structure SummaryPayload where
  summary : String
  generated_at : Nat
  deriving Repr, DecidableEq

/-- Cached AI artifact (src/backend/server.py:332).  `patient_id` models
`subject.patient_id`. -/
structure Artifact where
  _id : Nat
  tenant_id : String
  kind : String
  patient_id : Nat
  payload : SummaryPayload
  expires_at : Nat
  deriving Repr, DecidableEq

/-- The document database: one list per collection, in insertion order,
plus the fresh-identifier counter modelling uuid generation. -/
structure Store where
  patients : List Patient
  tasks : List Task
  documents : List Document
  appointments : List Appointment
  claims : List Claim
  claimEvents : List ClaimEvent
  consentForms : List ConsentForm
  aiArtifacts : List Artifact
  formTemplates : List String
  nextId : Nat
  deriving Repr, DecidableEq

/-- Mongo `update_one`: rewrite the first document matching the filter. -/
def updateFirst (p : α → Bool) (f : α → α) : List α → List α
  | [] => []
  | x :: xs => if p x then f x :: xs else x :: updateFirst p f xs

/-- Error surfaced by a route/tool: HTTP 404 or an MCP error dict. -/
inductive DbError where
  | notFound
  | nameRequired
  deriving Repr, DecidableEq

/-- Python truthiness of an optional string argument (`if status:`,
`if email:` in the source treat the empty string like `None`). -/
def truthy : Option String → Option String
  | none => none
  | some s => if s = "" then none else some s

/-- `int(amount * 100)`: the cents amount stored on a claim.  The source
computes this on binary floats; the model uses the exact rational, truncated
toward zero like Python `int()` (float rounding is not modelled). -/
def cents (a : Rat) : Int := (100 * a.num).tdiv (a.den : Int)

def incTasks (p : Patient) : Patient :=
  { p with tasks_count := p.tasks_count + 1 }

def incAppointments (p : Patient) : Patient :=
  { p with appointments_count := p.appointments_count + 1 }

/-- Current status of a patient as observable through the API. -/
def statusOf (s : Store) (pid : Nat) : Option String :=
  (s.patients.find? (fun p => p._id == pid)).map (fun p => p.status)

/-- Events of one claim, in insertion order (the `at`-ascending index order,
src/server.py:1201). -/
def claimEventsOf (s : Store) (cid : Nat) : List ClaimEvent :=
  s.claimEvents.filter (fun e => e.claim_id == cid && e.tenant_id == DEFAULT_TENANT)

/-- Number of tasks of a patient in a non-terminal state. -/
def liveTaskCount (s : Store) (pid : Nat) : Nat :=
  (s.tasks.filter (fun tk =>
    tk.patient_id == pid && !(tk.state == "done") && !(tk.state == "cancelled"))).length

/-- Number of task records of a patient, in any state. -/
def totalTaskCount (s : Store) (pid : Nat) : Nat :=
  (s.tasks.filter (fun tk => tk.patient_id == pid)).length

/-- The `tasks_count` counter stored on the patient document. -/
def tasksCountOf (s : Store) (pid : Nat) : Option Nat :=
  (s.patients.find? (fun p => p._id == pid)).map (fun p => p.tasks_count)

/-- The artifact filter of the summary endpoint cache lookup
(src/backend/server.py:305-309). -/
def artFlt (pid : Nat) : Artifact → Bool := fun a =>
  a.tenant_id == DEFAULT_TENANT && a.kind == "patient_summary" && a.patient_id == pid

/-- Request body of `POST /api/patients` (fields the claims inspect). -/
structure PatientCreate where
  first_name : String
  last_name : String
  email : String
  phone : String
  deriving Repr, DecidableEq

/-- Request body of `POST /api/tasks` (src/backend/models.py `TaskCreate`). -/
structure TaskCreate where
  patient_id : Nat
  kind : Option String
  priority : String
  deriving Repr, DecidableEq

/-- Request body of `POST /api/appointments`. -/
structure AppointmentCreate where
  patient_id : Nat
  deriving Repr, DecidableEq

/-- Request body of `POST /api/claims`. -/
structure ClaimCreate where
  patient_id : Nat
  amount : Rat
  deriving Repr, DecidableEq

namespace Server

/-- The 4 default consent form templates (src/server.py:211-228). -/
def defaultFormTitles : List String :=
  ["Insurance Information Release", "Medical Records Request - Lab",
   "HIPAA Authorization Form", "Consent for Treatment"]

/-- `POST /api/patients` (src/server.py:115-358).  Inserts the patient with
status `Intake In Progress`, 4 consent forms in `to_do`, then three tasks
(`consent_forms` open, `document_review` open, `welcome_email` in_progress),
each insert followed by a `tasks_count` increment; finally attempts the
welcome email and, when it reports success, marks the welcome task `done`
(src/server.py:343-347).  `emailSuccess` is the outcome reported by the
external email collaborator. -/
def create_patient (input : PatientCreate) (emailSuccess : Bool) (s : Store) :
    Nat × Store :=
  let pid := s.nextId
  let patient : Patient :=
    { _id := pid, tenant_id := DEFAULT_TENANT,
      first_name := input.first_name, last_name := input.last_name,
      email := input.email, phone := input.phone,
      status := "Intake In Progress", tasks_count := 0, appointments_count := 0 }
  let forms : List ConsentForm := defaultFormTitles.enum.map (fun it =>
    { _id := pid + 1 + it.1, tenant_id := DEFAULT_TENANT, patient_id := pid,
      title := it.2, status := "to_do" })
  let consentTask : Task :=
    { _id := .fresh (pid + 5), tenant_id := DEFAULT_TENANT, patient_id := pid,
      kind := some "consent_forms", state := "open", priority := "medium",
      confidence_score := 1, doc_id := none }
  let docTask : Task :=
    { _id := .fresh (pid + 6), tenant_id := DEFAULT_TENANT, patient_id := pid,
      kind := some "document_review", state := "open", priority := "medium",
      confidence_score := 1, doc_id := none }
  let welcomeTask : Task :=
    { _id := .fresh (pid + 7), tenant_id := DEFAULT_TENANT, patient_id := pid,
      kind := some "welcome_email", state := "in_progress", priority := "high",
      confidence_score := 1, doc_id := none }
  let s1 : Store := { s with patients := s.patients ++ [patient],
                             consentForms := s.consentForms ++ forms,
                             nextId := pid + 8 }
  let s2 : Store := { s1 with tasks := s1.tasks ++ [consentTask],
                              patients := updateFirst (fun p => p._id == pid) incTasks s1.patients }
  let s3 : Store := { s2 with tasks := s2.tasks ++ [docTask],
                              patients := updateFirst (fun p => p._id == pid) incTasks s2.patients }
  let s4 : Store := { s3 with tasks := s3.tasks ++ [welcomeTask],
                              patients := updateFirst (fun p => p._id == pid) incTasks s3.patients }
  let markDone := fun (tk : Task) => { tk with state := "done" }
  let isWelcome := fun (tk : Task) =>
    tk._id == TaskId.fresh (pid + 7) && tk.tenant_id == DEFAULT_TENANT
  let s5 : Store :=
    if emailSuccess then { s4 with tasks := updateFirst isWelcome markDone s4.tasks }
    else s4
  (pid, s5)

/-- `POST /api/tasks` (src/server.py:913-974).  404 when the patient does not
exist (before any write); otherwise inserts the task (state `open`) and
increments the patient `tasks_count`.  The transactional and fallback code
paths perform the same two writes. -/
def create_task (data : TaskCreate) (s : Store) : Except DbError (TaskId × Store) :=
  match s.patients.find?
      (fun p => p._id == data.patient_id && p.tenant_id == DEFAULT_TENANT) with
  | none => .error .notFound
  | some _ =>
    let task : Task :=
      { _id := .fresh s.nextId, tenant_id := DEFAULT_TENANT,
        patient_id := data.patient_id, kind := some (data.kind.getD "general"),
        state := "open", priority := data.priority,
        confidence_score := 1, doc_id := none }
    .ok (task._id,
      { s with tasks := s.tasks ++ [task],
               patients := updateFirst (fun p => p._id == data.patient_id)
                 incTasks s.patients,
               nextId := s.nextId + 1 })

/-- `PATCH /api/tasks/{task_id}` (src/server.py:977-1008).  Sets the state
when one is supplied (Python truthiness); 404 when no task matches.  The
patient `tasks_count` is NOT touched. -/
def update_task (tid : TaskId) (newState : Option String) (s : Store) :
    Except DbError Store :=
  let newState := truthy newState
  let flt := fun (tk : Task) => tk._id == tid && tk.tenant_id == DEFAULT_TENANT
  let setState := fun (tk : Task) =>
    match newState with
    | some st => { tk with state := st }
    | none => tk
  if s.tasks.any flt then
    .ok { s with tasks := updateFirst flt setState s.tasks }
  else .error .notFound

/-- `PATCH /api/appointments/{appointment_id}` (src/server.py:1011-1072).
Sets the status; 404 when no appointment matches.  When the new status is
`completed` and the appointment and its patient are found, inserts an
`insurance_verification` task (state open, priority high) and increments the
patient `tasks_count` — with no check for an already existing task of that
kind. -/
def update_appointment (aid : Nat) (newStatus : Option String) (s : Store) :
    Except DbError Store :=
  let newStatus := truthy newStatus
  let flt := fun (a : Appointment) => a._id == aid && a.tenant_id == DEFAULT_TENANT
  let setStatus := fun (a : Appointment) =>
    match newStatus with
    | some st => { a with status := st }
    | none => a
  if s.appointments.any flt then
    let s1 : Store := { s with appointments := updateFirst flt setStatus s.appointments }
    if newStatus == some "completed" then
      match s1.appointments.find? flt with
      | none => .ok s1
      | some appt =>
        match s1.patients.find?
            (fun p => p._id == appt.patient_id && p.tenant_id == DEFAULT_TENANT) with
        | none => .ok s1
        | some _ =>
          let task : Task :=
            { _id := .fresh s1.nextId, tenant_id := DEFAULT_TENANT,
              patient_id := appt.patient_id, kind := some "insurance_verification",
              state := "open", priority := "high",
              confidence_score := 1, doc_id := none }
          let pts := updateFirst (fun p => p._id == appt.patient_id) incTasks s1.patients
          .ok { s1 with tasks := s1.tasks ++ [task],
                        patients := pts,
                        nextId := s1.nextId + 1 }
    else .ok s1
  else .error .notFound

/-- `POST /api/appointments` (src/server.py:1287-1392).  No existence check
on `patient_id`: the appointment is inserted unconditionally and the
`appointments_count` increment silently matches nothing when the patient is
absent.  The confirmation email writes nothing to the store. -/
def create_appointment (data : AppointmentCreate) (s : Store) : Nat × Store :=
  let appt : Appointment :=
    { _id := s.nextId, tenant_id := DEFAULT_TENANT,
      patient_id := data.patient_id, status := "scheduled" }
  (appt._id,
    { s with appointments := s.appointments ++ [appt],
             patients := updateFirst (fun p => p._id == data.patient_id)
               incAppointments s.patients,
             nextId := s.nextId + 1 })

/-- `POST /api/claims` (src/server.py:1113-1169).  404 when the patient does
not exist (before any write); otherwise inserts the claim with status
`pending` and the single initial `submitted` audit event. -/
def create_claim (t : Nat) (data : ClaimCreate) (s : Store) :
    Except DbError (Nat × Store) :=
  match s.patients.find?
      (fun p => p._id == data.patient_id && p.tenant_id == DEFAULT_TENANT) with
  | none => .error .notFound
  | some _ =>
    let cid := s.nextId
    let claim : Claim :=
      { _id := cid, tenant_id := DEFAULT_TENANT, patient_id := data.patient_id,
        amount_cents := cents data.amount, amount_display := data.amount,
        status := "pending", last_event_at := t }
    let ev : ClaimEvent :=
      { _id := cid + 1, tenant_id := DEFAULT_TENANT, claim_id := cid,
        event_type := "submitted", atTime := t }
    .ok (cid, { s with claims := s.claims ++ [claim],
                       claimEvents := s.claimEvents ++ [ev],
                       nextId := cid + 2 })

/-- Simulated document ingestion (src/server.py:767-844; the copy at
src/backend/server.py:484-577 is identical up to websocket broadcasts).
The source draws `confidence` from `random.uniform(0.75, 0.98)`; it is a
parameter here.  Status becomes `ingested` only when confidence is strictly
above 9/10; a high-priority `document_review` task (plus `tasks_count`
increment) is created only when confidence is strictly below 9/10.  When the
document or patient lookup fails the source raises after the two document
updates, so the store is returned as of that point. -/
def trigger_document_extraction (docId : Nat) (confidence : Rat) (s : Store) :
    Store :=
  let docs1 := updateFirst (fun d => d._id == docId)
    (fun d => { d with status := "ingesting" }) s.documents
  let s1 : Store := { s with documents := docs1 }
  let newStatus := if confidence > mkRat 9 10 then "ingested" else "not_ingested"
  let docs2 := updateFirst (fun d => d._id == docId)
    (fun d => { d with status := newStatus, extracted_confidence := some confidence })
    s1.documents
  let s2 : Store := { s1 with documents := docs2 }
  if confidence < mkRat 9 10 then
    match s2.documents.find? (fun d => d._id == docId) with
    | none => s2
    | some doc =>
      match s2.patients.find? (fun p => p._id == doc.patient_id) with
      | none => s2
      | some _ =>
        let task : Task :=
          { _id := .fresh s2.nextId, tenant_id := DEFAULT_TENANT,
            patient_id := doc.patient_id, kind := some "document_review",
            state := "open", priority := "high",
            confidence_score := confidence, doc_id := some docId }
        let pts := updateFirst (fun p => p._id == doc.patient_id) incTasks s2.patients
        { s2 with tasks := s2.tasks ++ [task],
                  patients := pts,
                  nextId := s2.nextId + 1 }
  else s2

end Server

namespace Mcp

/-- Result of the `find_or_create_patient` MCP tool. -/
inductive FindOrCreateResult where
  | existing (pid : Nat)
  | created (pid : Nat)
  | errNameRequired
  deriving Repr, DecidableEq

/-- `name.strip().split()` then first word / rest (src/mcp_server.py:176-179). -/
def parseName (name : String) : String × String :=
  let parts := (name.splitOn " ").filter (fun w => !(w == ""))
  (parts.headD "", String.intercalate " " parts.tail)

/-- `find_or_create_patient` MCP tool (src/mcp_server.py:121-443).  The lookup
query filters by email when given, else by phone, else ONLY by tenant (so any
existing patient of the tenant matches).  On the create path: patient with
status `Intake In Progress`, the first 4 form templates (or the 4 defaults)
as consent forms in `to_do`, then three tasks (`document_review` open,
`consent_forms` open, `medical_records_collection` in_progress), each with a
`tasks_count` increment.  The welcome email writes nothing to the store. -/
def find_or_create_patient (name email phone : Option String) (s : Store) :
    FindOrCreateResult × Store :=
  let email := truthy email
  let phone := truthy phone
  let name := truthy name
  let query : Patient → Bool := fun p =>
    p.tenant_id == DEFAULT_TENANT &&
      (match email with
       | some e => p.email == e
       | none =>
         match phone with
         | some ph => p.phone == ph
         | none => true)
  match s.patients.find? query with
  | some p => (.existing p._id, s)
  | none =>
    match name with
    | none => (.errNameRequired, s)
    | some nm =>
      let fl := parseName nm
      let pid := s.nextId
      let patient : Patient :=
        { _id := pid, tenant_id := DEFAULT_TENANT,
          first_name := fl.1, last_name := fl.2,
          email := email.getD (fl.1.toLower ++ "@example.com"),
          phone := phone.getD "555-0000",
          status := "Intake In Progress", tasks_count := 0, appointments_count := 0 }
      let titles := if s.formTemplates.isEmpty then Server.defaultFormTitles
                    else s.formTemplates
      let forms : List ConsentForm := (titles.take 4).enum.map (fun it =>
        { _id := pid + 1 + it.1, tenant_id := DEFAULT_TENANT, patient_id := pid,
          title := it.2, status := "to_do" })
      let docTask : Task :=
        { _id := .fresh (pid + 5), tenant_id := DEFAULT_TENANT, patient_id := pid,
          kind := some "document_review", state := "open", priority := "medium",
          confidence_score := 1, doc_id := none }
      let careTask : Task :=
        { _id := .fresh (pid + 6), tenant_id := DEFAULT_TENANT, patient_id := pid,
          kind := some "consent_forms", state := "open", priority := "medium",
          confidence_score := 1, doc_id := none }
      let intakeTask : Task :=
        { _id := .fresh (pid + 7), tenant_id := DEFAULT_TENANT, patient_id := pid,
          kind := some "medical_records_collection", state := "in_progress",
          priority := "high", confidence_score := 1, doc_id := none }
      let s1 : Store := { s with patients := s.patients ++ [patient],
                                 consentForms := s.consentForms ++ forms,
                                 nextId := pid + 8 }
      let s2 : Store := { s1 with tasks := s1.tasks ++ [docTask],
                                  patients := updateFirst (fun p => p._id == pid) incTasks s1.patients }
      let s3 : Store := { s2 with tasks := s2.tasks ++ [careTask],
                                  patients := updateFirst (fun p => p._id == pid) incTasks s2.patients }
      let s4 : Store := { s3 with tasks := s3.tasks ++ [intakeTask],
                                  patients := updateFirst (fun p => p._id == pid) incTasks s3.patients }
      (.created pid, s4)

/-- `create_insurance_claim` MCP tool (src/mcp_server.py:825-903).  Returns
an error dict (no write) when the patient does not exist; otherwise inserts
the claim with status `pending` and the single initial `submitted` event. -/
def create_insurance_claim (t : Nat) (patient_id : Nat) (amount : Rat)
    (s : Store) : Except DbError (Nat × Store) :=
  match s.patients.find?
      (fun p => p._id == patient_id && p.tenant_id == DEFAULT_TENANT) with
  | none => .error .notFound
  | some _ =>
    let cid := s.nextId
    let claim : Claim :=
      { _id := cid, tenant_id := DEFAULT_TENANT, patient_id := patient_id,
        amount_cents := cents amount, amount_display := amount,
        status := "pending", last_event_at := t }
    let ev : ClaimEvent :=
      { _id := cid + 1, tenant_id := DEFAULT_TENANT, claim_id := cid,
        event_type := "submitted", atTime := t }
    .ok (cid, { s with claims := s.claims ++ [claim],
                       claimEvents := s.claimEvents ++ [ev],
                       nextId := cid + 2 })

/-- `update_insurance_claim` MCP tool (src/mcp_server.py:906-961).  Updates
amount and/or status on the claim (404-style error dict when absent); an
audit event is appended ONLY inside `if status:` — an amount-only update
appends no event.  The `reason` argument only feeds the event description
and is elided. -/
def update_insurance_claim (t : Nat) (cid : Nat) (amount : Option Rat)
    (status : Option String) (s : Store) : Except DbError Store :=
  let status := truthy status
  let upd : Claim → Claim := fun c =>
    let c1 := match amount with
      | some a => { c with amount_cents := cents a, amount_display := a }
      | none => c
    match status with
    | some st => { c1 with status := st, last_event_at := t }
    | none => c1
  let flt := fun (c : Claim) => c._id == cid && c.tenant_id == DEFAULT_TENANT
  if s.claims.any flt then
    let s1 : Store := { s with claims := updateFirst flt upd s.claims }
    match status with
    | some st =>
      let ev : ClaimEvent :=
        { _id := s1.nextId, tenant_id := DEFAULT_TENANT, claim_id := cid,
          event_type := st, atTime := t }
      .ok { s1 with claimEvents := s1.claimEvents ++ [ev],
                    nextId := s1.nextId + 1 }
    | none => .ok s1
  else .error .notFound

end Mcp

namespace Workflow

/-- The document-extraction task inserted by the documents-collected
workflow (src/workflow_automation.py:81-92): deterministic `_id`, no `kind`
key, priority high, default state `open`, confidence_score 92. -/
def extractTask (pid : Nat) : Task :=
  { _id := .extract pid, tenant_id := DEFAULT_TENANT, patient_id := pid,
    kind := none, state := "open", priority := "high",
    confidence_score := 92, doc_id := none }

/-- `trigger_documents_collected_workflow` (src/workflow_automation.py:73-100).
Inserts the extraction task, then unconditionally `$set`s the patient status
to `Doc Collection Done`.  `insert_one` with the deterministic `_id` raises
DuplicateKeyError when the task already exists, aborting before any write —
modelled by returning the store unchanged.  No `tasks_count` increment is
performed in this module. -/
def trigger_documents_collected_workflow (pid : Nat) (s : Store) : Store :=
  if s.tasks.any (fun tk => tk._id == TaskId.extract pid) then s
  else
    let s1 : Store := { s with tasks := s.tasks ++ [extractTask pid] }
    let pts := updateFirst (fun p => p._id == pid)
      (fun p => { p with status := "Doc Collection Done" }) s1.patients
    { s1 with patients := pts }

/-- Events the coordinator may interleave: the documents-collected workflow
for some patient, or a plain `PATCH` status write for some patient
(src/mcp_server.py:447 `update_patient`). -/
inductive WEvent where
  | docsCollected (pid : Nat)
  | patchStatus (pid : Nat) (newStatus : String)
  deriving Repr, DecidableEq

/-- The patient an event touches. -/
def WEvent.pid : WEvent → Nat
  | .docsCollected p => p
  | .patchStatus p _ => p

def applyWEvent (s : Store) : WEvent → Store
  | .docsCollected pid => trigger_documents_collected_workflow pid s
  | .patchStatus pid st =>
    let pts := updateFirst (fun p => p._id == pid)
      (fun p => { p with status := st }) s.patients
    { s with patients := pts }

def applyWEvents (evs : List WEvent) (s : Store) : Store :=
  evs.foldl applyWEvent s

end Workflow

namespace Backend

/-- Cache TTL: `timedelta(hours=1)` (src/backend/server.py:340), in seconds. -/
def TTL : Nat := 3600

/-- The generated summary text (src/backend/server.py:319 interpolates age,
gender, preconditions and status into an English template; the exact template
wording is irrelevant to the cache properties and abbreviated here). -/
def mockSummary (p : Patient) : String :=
  p.first_name ++ " " ++ p.last_name ++ " patient summary, status " ++ p.status

/-- Regeneration path of the summary endpoint (src/backend/server.py:314-343):
404 when the patient is absent; otherwise build the payload with
`generated_at` = now and insert a cache artifact expiring one hour later
(the expired artifact, if any, is NOT removed). -/
def regenerateSummary (t : Nat) (pid : Nat) (s : Store) :
    Except DbError (SummaryPayload × Store) :=
  match s.patients.find? (fun p => p._id == pid && p.tenant_id == DEFAULT_TENANT) with
  | none => .error .notFound
  | some p =>
    let payload : SummaryPayload := { summary := mockSummary p, generated_at := t }
    let art : Artifact :=
      { _id := s.nextId, tenant_id := DEFAULT_TENANT, kind := "patient_summary",
        patient_id := pid, payload := payload, expires_at := t + TTL }
    .ok (payload, { s with aiArtifacts := s.aiArtifacts ++ [art],
                           nextId := s.nextId + 1 })

/-- `GET /api/patients/{patient_id}/summary` (src/backend/server.py:296-344).
`find_one` (first match in insertion order) on the artifacts; the cached
payload is served iff `expires_at > now`, otherwise the endpoint
regenerates. -/
def get_patient_summary (t : Nat) (pid : Nat) (s : Store) :
    Except DbError (SummaryPayload × Store) :=
  let cached := s.aiArtifacts.find? (artFlt pid)
  match cached with
  | some a => if t < a.expires_at then .ok (a.payload, s) else regenerateSummary t pid s
  | none => regenerateSummary t pid s

end Backend

/-- The task create/update operations over which the counter invariant is
stated: `POST /api/tasks`, `PATCH /api/tasks`, and the workflow-triggered
insertion of `PATCH /api/appointments` with status `completed`.  A failed
request (404) leaves the store unchanged, as in the source. -/
inductive TaskOp where
  | create (data : TaskCreate)
  | update (tid : TaskId) (newState : Option String)
  | completeAppointment (aid : Nat)
  deriving Repr, DecidableEq

def applyTaskOp (s : Store) : TaskOp → Store
  | .create d =>
    match Server.create_task d s with
    | .ok r => r.2
    | .error _ => s
  | .update tid st =>
    match Server.update_task tid st s with
    | .ok s1 => s1
    | .error _ => s
  | .completeAppointment aid =>
    match Server.update_appointment aid (some "completed") s with
    | .ok s1 => s1
    | .error _ => s

def applyTaskOps (ops : List TaskOp) (s : Store) : Store :=
  ops.foldl applyTaskOp s

/-- A sequence of `update_insurance_claim` calls carrying a status, applied
at the given instants (a failed call leaves the store unchanged). -/
def applyClaimUpdates (cid : Nat) : List (Nat × String) → Store → Store
  | [], s => s
  | (t, st) :: rest, s =>
    match Mcp.update_insurance_claim t cid none (some st) s with
    | .ok s1 => applyClaimUpdates cid rest s1
    | .error _ => applyClaimUpdates cid rest s

/-- The initial audit event written at claim creation
(src/server.py:1151, src/mcp_server.py:883). -/
def submittedEvent (t0 : Nat) (s : Store) : ClaimEvent :=
  { _id := s.nextId + 1, tenant_id := DEFAULT_TENANT, claim_id := s.nextId,
    event_type := "submitted", atTime := t0 }

/-- The store produced by a successful claim creation — `POST /api/claims`
and the `create_insurance_claim` tool build identical records over the
modelled fields. -/
def createdClaimStore (t0 : Nat) (data : ClaimCreate) (s : Store) : Store :=
  { s with
      claims := s.claims ++
        [{ _id := s.nextId, tenant_id := DEFAULT_TENANT,
           patient_id := data.patient_id, amount_cents := cents data.amount,
           amount_display := data.amount, status := "pending",
           last_event_at := t0 }],
      claimEvents := s.claimEvents ++ [submittedEvent t0 s],
      nextId := s.nextId + 2 }

/-- Concrete fixtures used by the witnesses and counterexamples. -/
def janeDoe : Patient :=
  { _id := 0, tenant_id := DEFAULT_TENANT, first_name := "Jane",
    last_name := "Doe", email := "jane@example.com", phone := "555-1234",
    status := "Intake In Progress", tasks_count := 0, appointments_count := 0 }

def emptyStore : Store :=
  { patients := [], tasks := [], documents := [], appointments := [],
    claims := [], claimEvents := [], consentForms := [], aiArtifacts := [],
    formTemplates := [], nextId := 0 }

def onePatientStore : Store := { emptyStore with patients := [janeDoe], nextId := 1 }

def apptStore : Store :=
  { onePatientStore with
      appointments := [{ _id := 1, tenant_id := DEFAULT_TENANT,
                         patient_id := 0, status := "scheduled" }],
      nextId := 2 }

def docStore : Store :=
  { onePatientStore with
      documents := [{ _id := 1, tenant_id := DEFAULT_TENANT, patient_id := 0,
                      kind := "lab", status := "uploaded",
                      extracted_confidence := none }],
      nextId := 2 }

def claimFixture : Claim :=
  { _id := 1, tenant_id := DEFAULT_TENANT, patient_id := 0,
    amount_cents := 50000, amount_display := 500, status := "pending",
    last_event_at := 0 }

def claimStore : Store :=
  { onePatientStore with
      claims := [claimFixture],
      claimEvents := [{ _id := 2, tenant_id := DEFAULT_TENANT, claim_id := 1,
                        event_type := "submitted", atTime := 0 }],
      nextId := 3 }

def docCollStore : Store :=
  { emptyStore with
      patients := [{ janeDoe with status := "Doc Collection In Progress" }],
      nextId := 1 }

def janeDoeCreate : PatientCreate :=
  { first_name := "Jane", last_name := "Doe",
    email := "jane@example.com", phone := "555-1234" }

/-- Store after a summary request (the request never mutates on a cache hit). -/
def summaryStep (t pid : Nat) (s : Store) : Store :=
  match Backend.get_patient_summary t pid s with
  | .ok r => r.2
  | .error _ => s

/-- The `generated_at` stamp a summary request reports, when it succeeds. -/
def summaryGenAt (t pid : Nat) (s : Store) : Option Nat :=
  match Backend.get_patient_summary t pid s with
  | .ok r => some r.1.generated_at
  | .error _ => none

/-- Counter well-formedness over raw collections: patient ids are unique and
every patient's `tasks_count` equals its total number of task records. -/
def countsOkL (ps : List Patient) (ts : List Task) : Prop :=
  (ps.map (fun p => p._id)).Nodup ∧
  ∀ q ∈ ps, q.tasks_count = (ts.filter (fun tk => tk.patient_id == q._id)).length

/-- Counter well-formedness of a store: every patient's `tasks_count` equals
its TOTAL number of task records (NOT the number of non-terminal ones — see
the C2 analysis). -/
def countsOk (s : Store) : Prop := countsOkL s.patients s.tasks

/-- Tasks of a patient currently open for a given kind. -/
def openTasksOfKind (s : Store) (pid : Nat) (k : String) : List Task :=
  s.tasks.filter (fun tk =>
    tk.patient_id == pid && tk.kind == some k && tk.state == "open")

/-- Absence of the deterministic extraction task of a patient. -/
def noExtractTask (s : Store) (pid : Nat) : Prop :=
  s.tasks.any (fun tk => tk._id == TaskId.extract pid) = false

/- ------------------------------------------------------------------ -/
/- Generic lemmas about the list model of `update_one` / `find_one`.   -/
/- ------------------------------------------------------------------ -/

theorem updateFirst_map_invariant {α β : Type} (p : α → Bool) (f : α → α)
    (g : α → β) (hf : ∀ x, g (f x) = g x) :
    ∀ l : List α, (updateFirst p f l).map g = l.map g
  | [] => rfl
  | x :: xs => by
    simp only [updateFirst]
    cases hpx : p x with
    | true => simp [hf]
    | false => simp [updateFirst_map_invariant p f g hf xs]

theorem updateFirst_any_invariant {α : Type} (p : α → Bool) (f : α → α)
    (g : α → Bool) (hf : ∀ x, g (f x) = g x) :
    ∀ l : List α, (updateFirst p f l).any g = l.any g
  | [] => rfl
  | x :: xs => by
    simp only [updateFirst]
    cases hpx : p x with
    | true => simp [List.any_cons, hf]
    | false => simp [List.any_cons, updateFirst_any_invariant p f g hf xs]

theorem filter_updateFirst_length {α : Type} (p : α → Bool) (f : α → α)
    (g : α → Bool) (hf : ∀ x, g (f x) = g x) :
    ∀ l : List α, ((updateFirst p f l).filter g).length = (l.filter g).length
  | [] => rfl
  | x :: xs => by
    simp only [updateFirst]
    cases hpx : p x with
    | true =>
      cases hgx : g x with
      | true => simp [List.filter_cons, hf, hgx]
      | false => simp [List.filter_cons, hf, hgx]
    | false =>
      cases hgx : g x with
      | true => simp [List.filter_cons, hgx, filter_updateFirst_length p f g hf xs]
      | false => simp [List.filter_cons, hgx, filter_updateFirst_length p f g hf xs]

theorem find?_updateFirst_same {α : Type} (p : α → Bool) (f : α → α)
    (hf : ∀ x, p (f x) = p x) :
    ∀ l : List α, (updateFirst p f l).find? p = (l.find? p).map f
  | [] => rfl
  | x :: xs => by
    simp only [updateFirst]
    cases hpx : p x with
    | true => simp [List.find?_cons, hpx, hf]
    | false => simp [List.find?_cons, hpx, find?_updateFirst_same p f hf xs]

theorem find?_updateFirst_disjoint {α : Type} (p q : α → Bool) (f : α → α)
    (h : ∀ x, p x = true → q x = false ∧ q (f x) = false) :
    ∀ l : List α, (updateFirst p f l).find? q = l.find? q
  | [] => rfl
  | x :: xs => by
    simp only [updateFirst]
    cases hpx : p x with
    | true =>
      have hx := h x hpx
      simp [List.find?_cons, hx.1, hx.2]
    | false => simp [List.find?_cons, find?_updateFirst_disjoint p q f h xs]

theorem mem_updateFirst_nodup {α : Type} (g : α → Nat) (f : α → α) (a : Nat)
    (hf : ∀ x, g (f x) = g x) :
    ∀ l : List α, (l.map g).Nodup → ∀ q ∈ updateFirst (fun x => g x == a) f l,
      (q ∈ l ∧ g q ≠ a) ∨ ∃ x, x ∈ l ∧ g x = a ∧ q = f x
  | [], _, q, hq => by cases hq
  | x :: xs, hnd, q, hq => by
    have hnd' : (xs.map g).Nodup := (List.nodup_cons.mp hnd).2
    have hnx : g x ∉ xs.map g := (List.nodup_cons.mp hnd).1
    simp only [updateFirst] at hq
    cases hpx : (g x == a) with
    | true =>
      simp only [hpx, if_true] at hq
      have hgxa : g x = a := by simpa using hpx
      rcases List.mem_cons.mp hq with h1 | h2
      · exact Or.inr ⟨x, List.mem_cons_self x xs, hgxa, h1⟩
      · left
        refine ⟨List.mem_cons_of_mem x h2, ?_⟩
        intro hga
        apply hnx
        rw [hgxa, ← hga]
        exact List.mem_map_of_mem g h2
    | false =>
      simp only [hpx, Bool.false_eq_true, if_false] at hq
      rcases List.mem_cons.mp hq with h1 | h2
      · left
        refine ⟨h1 ▸ List.mem_cons_self x xs, ?_⟩
        subst h1
        intro hga
        rw [hga] at hpx
        simp at hpx
      · rcases mem_updateFirst_nodup g f a hf xs hnd' q h2 with ⟨hm, hne⟩ | ⟨x0, hx0, hga, hfq⟩
        · exact Or.inl ⟨List.mem_cons_of_mem x hm, hne⟩
        · exact Or.inr ⟨x0, List.mem_cons_of_mem x hx0, hga, hfq⟩

theorem updateFirst_append_left {α : Type} (p : α → Bool) (f : α → α)
    (l2 : List α) :
    ∀ l1 : List α, (∀ x ∈ l1, p x = false) →
      updateFirst p f (l1 ++ l2) = l1 ++ updateFirst p f l2
  | [], _ => rfl
  | x :: xs, h => by
    have hx : p x = false := h x (List.mem_cons_self x xs)
    simp only [List.cons_append, updateFirst, hx, Bool.false_eq_true, if_false,
      List.cons.injEq, true_and]
    exact updateFirst_append_left p f l2 xs
      (fun y hy => h y (List.mem_cons_of_mem x hy))

theorem find?_append_left_none {α : Type} (p : α → Bool) (l2 : List α) :
    ∀ l1 : List α, (∀ x ∈ l1, p x = false) → (l1 ++ l2).find? p = l2.find? p
  | [], _ => rfl
  | x :: xs, h => by
    have hx : p x = false := h x (List.mem_cons_self x xs)
    simp only [List.cons_append, List.find?_cons, hx]
    exact find?_append_left_none p l2 xs
      (fun y hy => h y (List.mem_cons_of_mem x hy))

theorem filter_append_left_none {α : Type} (p : α → Bool) (l1 l2 : List α)
    (h : ∀ x ∈ l1, p x = false) : (l1 ++ l2).filter p = l2.filter p := by
  rw [List.filter_append]
  have : l1.filter p = [] := by
    rw [List.filter_eq_nil_iff]
    intro a ha
    simp [h a ha]
  rw [this, List.nil_append]

/- ------------------------------------------------------------------ -/
/- Claim theorems.                                                     -/
/- ------------------------------------------------------------------ -/

/-- Claim C10: at extraction confidence exactly 9/10 the simulated ingestion
(src/server.py:793-812, src/backend/server.py:516-531) marks the document
`not_ingested` (the `ingested` branch requires confidence strictly greater
than 0.9) yet creates no human-review task and no counter increment (the task
branch requires confidence strictly less than 0.9): the document ends
`not_ingested` with no task referencing it. -/
theorem threshold_gap_at_ninety_percent :
    (Server.trigger_document_extraction 1 (mkRat 9 10) docStore).documents.map
        (fun d => (d.status, d.extracted_confidence)) =
      [("not_ingested", some (mkRat 9 10))] ∧
    (Server.trigger_document_extraction 1 (mkRat 9 10) docStore).tasks = [] ∧
    tasksCountOf (Server.trigger_document_extraction 1 (mkRat 9 10) docStore) 0 =
      some 0 := by
  refine ⟨by decide, by decide, by decide⟩

/-- Claim C2 counterexample: create one task for patient 0 (counter becomes 1),
then `PATCH /api/tasks` moves it to `done`; no code path decrements
`tasks_count` (src/server.py:977-1008), so the stored counter is 1 while the
count of non-terminal tasks is 0 — the claimed invariant fails. -/
theorem tasks_count_drift_counterexample :
    tasksCountOf (applyTaskOps
      [TaskOp.create { patient_id := 0, kind := none, priority := "medium" },
       TaskOp.update (TaskId.fresh 1) (some "done")] onePatientStore) 0 = some 1 ∧
    liveTaskCount (applyTaskOps
      [TaskOp.create { patient_id := 0, kind := none, priority := "medium" },
       TaskOp.update (TaskId.fresh 1) (some "done")] onePatientStore) 0 = 0 := by
  refine ⟨by decide, by decide⟩

/-- Claim C3 counterexample: `PATCH /api/appointments/{id}` with
status=`completed` applied twice to the same appointment creates two open
`insurance_verification` tasks for the same patient (src/server.py:1029-1070
performs no duplicate check), so the second delivery is not a no-op. -/
theorem duplicate_insurance_task_counterexample :
    (openTasksOfKind (applyTaskOp apptStore (TaskOp.completeAppointment 1)) 0
        "insurance_verification").length = 1 ∧
    (openTasksOfKind (applyTaskOp (applyTaskOp apptStore
        (TaskOp.completeAppointment 1)) (TaskOp.completeAppointment 1)) 0
        "insurance_verification").length = 2 := by
  refine ⟨by decide, by decide⟩

/-- Claim C4 counterexample: an amount-only `update_insurance_claim` call on
an existing claim succeeds and rewrites the amount, but appends NO ClaimEvent
(the event insert sits inside `if status:`, src/mcp_server.py:944-955): the
event list still has only the creation event. -/
theorem amount_only_update_no_event_counterexample :
    (claimEventsOf claimStore 1).length = 1 ∧
    (Mcp.update_insurance_claim 5 1 (some 100) none claimStore).toOption.map
        (fun s1 => ((claimEventsOf s1 1).length,
                    s1.claims.map (fun c => c.amount_cents))) =
      some (1, [10000]) := by
  refine ⟨by decide, by decide⟩

/-- Claim C5 counterexample: `POST /api/patients` (src/server.py:115-358) on
Jane Doe leaves status `Intake In Progress` and emits exactly 3 tasks, but
the welcome task is created with state `in_progress` and marked `done` when
the welcome email succeeds — so only 2 tasks are in state `open` (and only 2
are non-terminal in this run), not the claimed 3 open tasks. -/
theorem three_open_tasks_counterexample :
    statusOf (Server.create_patient janeDoeCreate true emptyStore).2 0 =
      some "Intake In Progress" ∧
    totalTaskCount (Server.create_patient janeDoeCreate true emptyStore).2 0 = 3 ∧
    ((Server.create_patient janeDoeCreate true emptyStore).2.tasks.filter
      (fun tk => tk.patient_id == 0 && tk.state == "open")).length = 2 ∧
    liveTaskCount (Server.create_patient janeDoeCreate true emptyStore).2 0 = 2 := by
  refine ⟨by decide, by decide, by decide, by decide⟩

/-- Claim C6 counterexample: `POST /api/appointments` (src/server.py:1287)
never checks that the patient exists; on a store with no patients at all it
succeeds and inserts the appointment record — a write despite the dangling
reference, where the claim demands a 404 with nothing written. -/
theorem appointment_insert_without_patient_counterexample :
    emptyStore.patients = [] ∧
    (Server.create_appointment { patient_id := 99 } emptyStore).2.appointments.map
      (fun a => (a._id, a.patient_id, a.status)) = [(0, 99, "scheduled")] := by
  refine ⟨by decide, by decide⟩

/-- Claim C8 counterexample: after the first artifact (expiry 3600) lapses, a
call at t=4000 stores a second artifact (expiry 7600) but never removes the
first; `find_one` keeps returning the expired first artifact, so the calls at
t=4001 and t=4002 — both within the TTL window of the fresh artifact — each
regenerate and return different `generated_at` stamps instead of an
identical payload (src/backend/server.py:304-343). -/
theorem summary_cache_counterexample :
    ((summaryStep 4000 0 (summaryStep 0 0 onePatientStore)).aiArtifacts.map
      (fun a => a.expires_at)) = [3600, 7600] ∧
    summaryGenAt 4001 0 (summaryStep 4000 0 (summaryStep 0 0 onePatientStore)) =
      some 4001 ∧
    summaryGenAt 4002 0 (summaryStep 4001 0 (summaryStep 4000 0
      (summaryStep 0 0 onePatientStore))) = some 4002 ∧
    4001 < 7600 ∧ 4002 < 7600 := by
  refine ⟨by decide, by decide, by decide, by decide, by decide⟩

/-- Claim C6 amended: referencing a missing patient aborts `POST /api/tasks`,
`POST /api/claims` and the `create_insurance_claim` tool with a
404-equivalent before any write — but `POST /api/appointments` performs no
existence check and inserts the appointment record regardless (its counter
increment then matches no patient document). -/
theorem notfound_aborts_without_write (data : TaskCreate) (cd : ClaimCreate)
    (t pid2 : Nat) (am : Rat) (ad : AppointmentCreate) (s : Store)
    (h1 : s.patients.find?
      (fun p => p._id == data.patient_id && p.tenant_id == DEFAULT_TENANT) = none)
    (h2 : s.patients.find?
      (fun p => p._id == cd.patient_id && p.tenant_id == DEFAULT_TENANT) = none)
    (h3 : s.patients.find?
      (fun p => p._id == pid2 && p.tenant_id == DEFAULT_TENANT) = none) :
    Server.create_task data s = .error .notFound ∧
    Server.create_claim t cd s = .error .notFound ∧
    Mcp.create_insurance_claim t pid2 am s = .error .notFound ∧
    (Server.create_appointment ad s).2.appointments =
      s.appointments ++ [{ _id := s.nextId, tenant_id := DEFAULT_TENANT,
                           patient_id := ad.patient_id, status := "scheduled" }] := by
  refine ⟨?_, ?_, ?_, ?_⟩
  · simp [Server.create_task, h1]
  · simp [Server.create_claim, h2]
  · simp [Mcp.create_insurance_claim, h3]
  · simp [Server.create_appointment]

/-- Claim C4 amended: on an existing claim `update_insurance_claim` always
succeeds, and a ClaimEvent is appended exactly when a (non-empty) status is
supplied: a status-carrying update appends one event with that type and
timestamp, while an update without status (e.g. amount-only) leaves the
event collection untouched. -/
theorem claim_event_appended_iff_status (t cid : Nat) (amount : Option Rat)
    (status : Option String) (s : Store)
    (hcl : s.claims.any
      (fun c => c._id == cid && c.tenant_id == DEFAULT_TENANT) = true) :
    (truthy status = none →
      (Mcp.update_insurance_claim t cid amount status s).toOption.map
        (fun s1 => s1.claimEvents) = some s.claimEvents) ∧
    (∀ st, truthy status = some st →
      (Mcp.update_insurance_claim t cid amount status s).toOption.map
        (fun s1 => (claimEventsOf s1 cid).map (fun e => (e.event_type, e.atTime)))
        = some ((claimEventsOf s cid).map (fun e => (e.event_type, e.atTime))
            ++ [(st, t)])) := by
  constructor
  · intro hn
    simp only [Mcp.update_insurance_claim, hcl, if_true, hn]
    rfl
  · intro st hst
    simp only [Mcp.update_insurance_claim, hcl, if_true, hst, Except.toOption,
      Option.map]
    simp [claimEventsOf, List.filter_append]

/-- Claim C3 amended: task emission on appointment completion is NOT
idempotent.  Every `PATCH /api/appointments/{id}` with status `completed`
whose appointment and patient exist appends one more open
`insurance_verification` task for that patient, so re-delivering the event
grows the set of open tasks of that kind instead of being a no-op. -/
theorem completed_appointment_emits_every_time (aid : Nat) (s : Store)
    (appt : Appointment) (p : Patient)
    (ha : s.appointments.find?
      (fun a => a._id == aid && a.tenant_id == DEFAULT_TENANT) = some appt)
    (hp : s.patients.find?
      (fun q => q._id == appt.patient_id && q.tenant_id == DEFAULT_TENANT)
      = some p) :
    (Server.update_appointment aid (some "completed") s).toOption.map
      (fun s1 => (openTasksOfKind s1 appt.patient_id "insurance_verification").length)
      = some ((openTasksOfKind s appt.patient_id "insurance_verification").length
          + 1) := by
  have hptrue := List.find?_some ha
  have hany : s.appointments.any
      (fun a => a._id == aid && a.tenant_id == DEFAULT_TENANT) = true :=
    List.any_eq_true.mpr ⟨appt, List.mem_of_find?_eq_some ha, hptrue⟩
  have htr : truthy (some "completed") = some "completed" := by decide
  have hfind : (updateFirst
      (fun a => a._id == aid && a.tenant_id == DEFAULT_TENANT)
      (fun a => { a with status := "completed" }) s.appointments).find?
      (fun a => a._id == aid && a.tenant_id == DEFAULT_TENANT)
      = some { appt with status := "completed" } := by
    have hsame := find?_updateFirst_same
      (fun a : Appointment => a._id == aid && a.tenant_id == DEFAULT_TENANT)
      (fun a : Appointment => { a with status := "completed" })
      (fun x => rfl) s.appointments
    rw [hsame, ha]
    rfl
  simp only [Server.update_appointment, htr, hany, if_true, hfind, hp]
  simp only [Except.toOption, Option.map_some, Option.some.injEq]
  simp [openTasksOfKind, List.filter_append]

/-- Claim C7: simulated ingestion (src/server.py:767-844) with confidence
strictly below 0.9 sets the document to `not_ingested` and appends exactly
one open high-priority `document_review` task carrying that confidence as
its `confidence_score` for the document's patient, incrementing the
patient's `tasks_count`; with confidence strictly above 0.9 it sets the
document to `ingested`, creates no task and leaves every patient untouched. -/
theorem extraction_confidence_review_task (docId : Nat) (c : Rat) (s : Store)
    (doc : Document) (p : Patient)
    (hd : s.documents.find? (fun d => d._id == docId) = some doc)
    (hp : s.patients.find? (fun q => q._id == doc.patient_id) = some p) :
    (c < mkRat 9 10 →
      (Server.trigger_document_extraction docId c s).tasks =
        s.tasks ++ [{ _id := .fresh s.nextId, tenant_id := DEFAULT_TENANT,
                      patient_id := doc.patient_id, kind := some "document_review",
                      state := "open", priority := "high",
                      confidence_score := c, doc_id := some docId }] ∧
      (Server.trigger_document_extraction docId c s).documents.find?
          (fun d => d._id == docId) =
        some { doc with status := "not_ingested", extracted_confidence := some c } ∧
      tasksCountOf (Server.trigger_document_extraction docId c s) doc.patient_id
        = some (p.tasks_count + 1) ∧
      tasksCountOf s doc.patient_id = some p.tasks_count) ∧
    (mkRat 9 10 < c →
      (Server.trigger_document_extraction docId c s).tasks = s.tasks ∧
      (Server.trigger_document_extraction docId c s).documents.find?
          (fun d => d._id == docId) =
        some { doc with status := "ingested", extracted_confidence := some c } ∧
      (Server.trigger_document_extraction docId c s).patients = s.patients) := by
  have hfind2 : ∀ st : String,
      (updateFirst (fun d => d._id == docId)
        (fun d => { d with status := st, extracted_confidence := some c })
        (updateFirst (fun d => d._id == docId)
          (fun d => { d with status := "ingesting" }) s.documents)).find?
        (fun d => d._id == docId)
      = some { doc with status := st, extracted_confidence := some c } := by
    intro st
    have h1 := find?_updateFirst_same (fun d : Document => d._id == docId)
      (fun d => { d with status := "ingesting" }) (fun x => rfl) s.documents
    have h2 := find?_updateFirst_same (fun d : Document => d._id == docId)
      (fun d => { d with status := st, extracted_confidence := some c })
      (fun x => rfl)
      (updateFirst (fun d : Document => d._id == docId)
        (fun d => { d with status := "ingesting" }) s.documents)
    rw [h2, h1, hd]
    rfl
  have hcount : (updateFirst (fun q => q._id == doc.patient_id) incTasks
      s.patients).find? (fun q => q._id == doc.patient_id)
      = some (incTasks p) := by
    have h3 := find?_updateFirst_same (fun q : Patient => q._id == doc.patient_id)
      incTasks (fun x => rfl) s.patients
    rw [h3, hp]
    rfl
  constructor
  · intro hlt
    have hngt : ¬ (mkRat 9 10 < c) := lt_asymm hlt
    simp only [Server.trigger_document_extraction, if_neg hngt, if_pos hlt,
      hfind2, hp, tasksCountOf, hcount]
    simp [incTasks]
  · intro hgt
    have hnlt : ¬ (c < mkRat 9 10) := lt_asymm hgt
    simp only [Server.trigger_document_extraction, if_pos hgt, if_neg hnlt,
      hfind2]
    simp

/-- Claim C8 amended: with no cached artifact yet for the patient, the summary
endpoint regenerates without error, stamps `generated_at` with the request
instant and caches the payload for one hour; every further call within that
hour returns the identical payload and does not touch the store; a call at or
after expiry regenerates and stores a new payload with a fresh
`generated_at`.  (The expired artifact is never removed and keeps shadowing
newer ones in `find_one`, which is what breaks the literal claim — see the
counterexample.) -/
theorem summary_cache_behavior (pid t0 t1 t2 : Nat) (s : Store) (p : Patient)
    (hp : s.patients.find?
      (fun q => q._id == pid && q.tenant_id == DEFAULT_TENANT) = some p)
    (hnone : s.aiArtifacts.find? (artFlt pid) = none)
    (ht1 : t1 < t0 + Backend.TTL) (ht2 : t2 < t0 + Backend.TTL) :
    ∃ pay s1, Backend.get_patient_summary t0 pid s = .ok (pay, s1) ∧
      pay.generated_at = t0 ∧
      Backend.get_patient_summary t1 pid s1 = .ok (pay, s1) ∧
      Backend.get_patient_summary t2 pid s1 = .ok (pay, s1) ∧
      ∀ t3, t0 + Backend.TTL ≤ t3 →
        (Backend.get_patient_summary t3 pid s1).toOption.map
          (fun r => r.1.generated_at) = some t3 := by
  have hall := List.find?_eq_none.mp hnone
  have hfind : ∀ art : Artifact, artFlt pid art = true →
      (s.aiArtifacts ++ [art]).find? (artFlt pid) = some art := by
    intro art hart
    rw [find?_append_left_none (artFlt pid) _ s.aiArtifacts
      (fun x hx => Bool.eq_false_iff.mpr (hall x hx))]
    simp [List.find?_cons, hart]
  have hstep : List.find? (artFlt pid) (s.aiArtifacts ++
      [{ _id := s.nextId, tenant_id := DEFAULT_TENANT, kind := "patient_summary",
         patient_id := pid,
         payload := { summary := Backend.mockSummary p, generated_at := t0 },
         expires_at := t0 + Backend.TTL }]) = some
      { _id := s.nextId, tenant_id := DEFAULT_TENANT, kind := "patient_summary",
        patient_id := pid,
        payload := { summary := Backend.mockSummary p, generated_at := t0 },
        expires_at := t0 + Backend.TTL } :=
    hfind _ (by simp [artFlt])
  refine ⟨{ summary := Backend.mockSummary p, generated_at := t0 },
    { s with
        aiArtifacts := s.aiArtifacts ++
          [{ _id := s.nextId, tenant_id := DEFAULT_TENANT,
             kind := "patient_summary", patient_id := pid,
             payload := { summary := Backend.mockSummary p, generated_at := t0 },
             expires_at := t0 + Backend.TTL }],
        nextId := s.nextId + 1 },
    ?_, rfl, ?_, ?_, ?_⟩
  · simp only [Backend.get_patient_summary, hnone, Backend.regenerateSummary, hp]
  · simp only [Backend.get_patient_summary, hstep, if_pos ht1]
  · simp only [Backend.get_patient_summary, hstep, if_pos ht2]
  · intro t3 ht3
    have hexp : ¬ (t3 < t0 + Backend.TTL) := Nat.not_lt.mpr ht3
    simp only [Backend.get_patient_summary, hstep, if_neg hexp,
      Backend.regenerateSummary, hp]
    rfl

/-- Claim C5 amended: `POST /api/patients` leaves the new patient with status
`Intake In Progress`, `tasks_count` 3, 4 default consent forms in `to_do`,
and exactly 3 emitted tasks of kinds
`consent_forms`/`document_review`/`welcome_email` — of which the first two
are in state `open` while the welcome task starts `in_progress` and is marked
`done` when the welcome email succeeds; so the patient never has 3 tasks in
state `open`.  The `find_or_create_patient` tool creates the analogous batch
(kinds `document_review`/`consent_forms`/`medical_records_collection`, 2 open
and 1 `in_progress`) with 4 `to_do` consent forms. -/
theorem patient_creation_effects (input : PatientCreate) (es : Bool) (s : Store)
    (hT : ∀ tk ∈ s.tasks, tk.patient_id ≠ s.nextId)
    (hTid : ∀ tk ∈ s.tasks, tk._id ≠ TaskId.fresh (s.nextId + 7))
    (hF : ∀ f ∈ s.consentForms, f.patient_id ≠ s.nextId)
    (hP : ∀ q ∈ s.patients, q._id ≠ s.nextId) :
    (Server.create_patient input es s).1 = s.nextId ∧
    statusOf (Server.create_patient input es s).2 s.nextId
      = some "Intake In Progress" ∧
    tasksCountOf (Server.create_patient input es s).2 s.nextId = some 3 ∧
    ((Server.create_patient input es s).2.consentForms.filter
      (fun f => f.patient_id == s.nextId && f.status == "to_do")).length = 4 ∧
    ((Server.create_patient input es s).2.tasks.filter
      (fun tk => tk.patient_id == s.nextId)).map (fun tk => (tk.kind, tk.state))
      = [(some "consent_forms", "open"), (some "document_review", "open"),
         (some "welcome_email", if es then "done" else "in_progress")] ∧
    ((Mcp.find_or_create_patient (some "Jane Doe") (some "jd@example.com") none
        emptyStore).2.tasks.map (fun tk => (tk.kind, tk.state))
      = [(some "document_review", "open"), (some "consent_forms", "open"),
         (some "medical_records_collection", "in_progress")]) ∧
    statusOf (Mcp.find_or_create_patient (some "Jane Doe")
      (some "jd@example.com") none emptyStore).2 0 = some "Intake In Progress" ∧
    ((Mcp.find_or_create_patient (some "Jane Doe") (some "jd@example.com") none
        emptyStore).2.consentForms.map (fun f => f.status)
      = ["to_do", "to_do", "to_do", "to_do"]) := by
  have hPf : ∀ x ∈ s.patients, ((fun q : Patient => q._id == s.nextId) x) = false :=
    fun x hx => by simp [hP x hx]
  have hTf : ∀ x ∈ s.tasks, ((fun tk : Task => tk.patient_id == s.nextId) x) = false :=
    fun x hx => by simp [hT x hx]
  have hFf : ∀ x ∈ s.consentForms,
      ((fun f : ConsentForm => f.patient_id == s.nextId && f.status == "to_do") x)
        = false :=
    fun x hx => by simp [hF x hx]
  have hWf : ∀ x ∈ s.tasks,
      ((fun tk : Task => tk._id == TaskId.fresh (s.nextId + 7) &&
        tk.tenant_id == DEFAULT_TENANT) x) = false :=
    fun x hx => by simp [hTid x hx]
  have h57 : (TaskId.fresh (s.nextId + 5) == TaskId.fresh (s.nextId + 7)) = false := by
    simp
  have h67 : (TaskId.fresh (s.nextId + 6) == TaskId.fresh (s.nextId + 7)) = false := by
    simp
  have hstat : ∀ l : List Patient,
      Option.map (fun p => p.status)
        (List.find? (fun q : Patient => q._id == s.nextId)
          (updateFirst (fun q : Patient => q._id == s.nextId) incTasks
            (updateFirst (fun q : Patient => q._id == s.nextId) incTasks
              (updateFirst (fun q : Patient => q._id == s.nextId) incTasks l))))
        = Option.map (fun p => p.status)
            (List.find? (fun q : Patient => q._id == s.nextId) l) := by
    intro l
    rw [find?_updateFirst_same (fun q : Patient => q._id == s.nextId) incTasks
        (fun x => rfl),
      find?_updateFirst_same (fun q : Patient => q._id == s.nextId) incTasks
        (fun x => rfl),
      find?_updateFirst_same (fun q : Patient => q._id == s.nextId) incTasks
        (fun x => rfl)]
    cases List.find? (fun q : Patient => q._id == s.nextId) l <;> rfl
  have hcnt : ∀ l : List Patient,
      Option.map (fun p => p.tasks_count)
        (List.find? (fun q : Patient => q._id == s.nextId)
          (updateFirst (fun q : Patient => q._id == s.nextId) incTasks
            (updateFirst (fun q : Patient => q._id == s.nextId) incTasks
              (updateFirst (fun q : Patient => q._id == s.nextId) incTasks l))))
        = Option.map (fun p => p.tasks_count + 3)
            (List.find? (fun q : Patient => q._id == s.nextId) l) := by
    intro l
    rw [find?_updateFirst_same (fun q : Patient => q._id == s.nextId) incTasks
        (fun x => rfl),
      find?_updateFirst_same (fun q : Patient => q._id == s.nextId) incTasks
        (fun x => rfl),
      find?_updateFirst_same (fun q : Patient => q._id == s.nextId) incTasks
        (fun x => rfl)]
    cases List.find? (fun q : Patient => q._id == s.nextId) l <;> rfl
  have hbase : ∀ pp : Patient, pp._id = s.nextId →
      List.find? (fun q : Patient => q._id == s.nextId) (s.patients ++ [pp])
        = some pp := by
    intro pp hpp
    rw [find?_append_left_none (fun q : Patient => q._id == s.nextId) _
      s.patients hPf]
    simp [hpp]
  cases es with
  | true =>
    refine ⟨rfl, ?_, ?_, ?_, ?_, by decide, by decide, by decide⟩
    · simp only [Server.create_patient, statusOf, if_true]
      rw [hstat, hbase _ rfl]
      rfl
    · simp only [Server.create_patient, tasksCountOf, if_true]
      rw [hcnt, hbase _ rfl]
      rfl
    · simp only [Server.create_patient, if_true]
      rw [filter_append_left_none
        (fun f : ConsentForm => f.patient_id == s.nextId && f.status == "to_do")
        s.consentForms _ hFf]
      simp [Server.defaultFormTitles, List.enum, List.enumFrom]
    · simp only [Server.create_patient, if_true, List.append_assoc]
      rw [updateFirst_append_left
        (fun tk : Task => tk._id == TaskId.fresh (s.nextId + 7) &&
          tk.tenant_id == DEFAULT_TENANT) _ _ s.tasks hWf]
      rw [filter_append_left_none
        (fun tk : Task => tk.patient_id == s.nextId) s.tasks _ hTf]
      simp [updateFirst, h57, h67]
  | false =>
    refine ⟨rfl, ?_, ?_, ?_, ?_, by decide, by decide, by decide⟩
    · simp only [Server.create_patient, statusOf, Bool.false_eq_true, if_false]
      rw [hstat, hbase _ rfl]
      rfl
    · simp only [Server.create_patient, tasksCountOf, Bool.false_eq_true, if_false]
      rw [hcnt, hbase _ rfl]
      rfl
    · simp only [Server.create_patient, Bool.false_eq_true, if_false]
      rw [filter_append_left_none
        (fun f : ConsentForm => f.patient_id == s.nextId && f.status == "to_do")
        s.consentForms _ hFf]
      simp [Server.defaultFormTitles, List.enum, List.enumFrom]
    · simp only [Server.create_patient, Bool.false_eq_true, if_false,
        List.append_assoc]
      rw [filter_append_left_none
        (fun tk : Task => tk.patient_id == s.nextId) s.tasks _ hTf]
      simp

/-- Inserting a task and atomically incrementing its patient preserves the
counter well-formedness (the transactional write of `POST /api/tasks`). -/
theorem countsOkL_insert_inc (ps : List Patient) (ts : List Task) (tk : Task)
    (h : countsOkL ps ts) :
    countsOkL (updateFirst (fun q => q._id == tk.patient_id) incTasks ps)
      (ts ++ [tk]) := by
  obtain ⟨hnd, hcnt⟩ := h
  have hmapinv := updateFirst_map_invariant
    (fun q : Patient => q._id == tk.patient_id) incTasks (fun p => p._id)
    (fun x => rfl) ps
  constructor
  · rw [hmapinv]
    exact hnd
  · intro q hq
    have hmem := mem_updateFirst_nodup (fun p : Patient => p._id) incTasks
      tk.patient_id (fun x => rfl) ps hnd q hq
    rw [List.filter_append]
    rcases hmem with ⟨hm, hne⟩ | ⟨x, hx, hxid, hqe⟩
    · have hf : (tk.patient_id == q._id) = false := by
        simp
        exact fun hh => hne hh.symm
      simp [List.filter_cons, hf, hcnt q hm]
    · subst hqe
      have htru : (tk.patient_id == (incTasks x)._id) = true := by
        simp [incTasks, hxid]
      simp [List.filter_cons, htru, incTasks, hcnt x hx, hxid]

/-- Rewriting tasks in place (a `PATCH`) with a `patient_id`-preserving
function preserves the counter well-formedness. -/
theorem countsOkL_update (ps : List Patient) (ts : List Task)
    (p0 : Task → Bool) (f : Task → Task)
    (hf : ∀ x, (f x).patient_id = x.patient_id) (h : countsOkL ps ts) :
    countsOkL ps (updateFirst p0 f ts) := by
  obtain ⟨hnd, hcnt⟩ := h
  refine ⟨hnd, fun q hq => ?_⟩
  rw [filter_updateFirst_length p0 f (fun tk => tk.patient_id == q._id)
    (fun x => by simp [hf])]
  exact hcnt q hq

/-- Single-operation preservation of the counter well-formedness. -/
theorem applyTaskOp_countsOk (s : Store) (op : TaskOp) (h : countsOk s) :
    countsOk (applyTaskOp s op) := by
  cases op with
  | create d =>
    simp only [applyTaskOp, Server.create_task]
    cases hfind : s.patients.find?
        (fun p => p._id == d.patient_id && p.tenant_id == DEFAULT_TENANT) with
    | none => exact h
    | some p =>
      exact countsOkL_insert_inc s.patients s.tasks
        { _id := TaskId.fresh s.nextId, tenant_id := DEFAULT_TENANT,
          patient_id := d.patient_id, kind := some (d.kind.getD "general"),
          state := "open", priority := d.priority,
          confidence_score := 1, doc_id := none } h
  | update tid st =>
    simp only [applyTaskOp, Server.update_task]
    cases hany : s.tasks.any
        (fun tk => tk._id == tid && tk.tenant_id == DEFAULT_TENANT) with
    | false => exact h
    | true =>
      refine countsOkL_update s.patients s.tasks _ _ ?_ h
      intro x
      cases truthy st <;> rfl
  | completeAppointment aid =>
    have htr : truthy (some "completed") = some "completed" := by decide
    cases hany : s.appointments.any
        (fun a => a._id == aid && a.tenant_id == DEFAULT_TENANT) with
    | false =>
      simp only [applyTaskOp, Server.update_appointment, htr, hany]
      exact h
    | true =>
      cases hfa : (updateFirst
          (fun a => a._id == aid && a.tenant_id == DEFAULT_TENANT)
          (fun a => { a with status := "completed" })
          s.appointments).find?
          (fun a => a._id == aid && a.tenant_id == DEFAULT_TENANT) with
      | none =>
        simp only [applyTaskOp, Server.update_appointment, htr, hany, hfa]
        exact h
      | some appt =>
        cases hfp : s.patients.find?
            (fun p => p._id == appt.patient_id && p.tenant_id == DEFAULT_TENANT) with
        | none =>
          simp only [applyTaskOp, Server.update_appointment, htr, hany, hfa, hfp]
          exact h
        | some p =>
          simp only [applyTaskOp, Server.update_appointment, htr, hany, hfa, hfp]
          exact countsOkL_insert_inc s.patients s.tasks
            { _id := TaskId.fresh s.nextId, tenant_id := DEFAULT_TENANT,
              patient_id := appt.patient_id,
              kind := some "insurance_verification", state := "open",
              priority := "high", confidence_score := 1, doc_id := none } h

/-- Claim C2 amended: over any sequence of `POST /api/tasks`,
`PATCH /api/tasks/{task_id}` and workflow-triggered appointment-completion
emissions, every patient's `tasks_count` stays equal to the TOTAL number of
its task records, whatever their state — creation inserts and increments
atomically, while moving a task to `done`/`cancelled` leaves the counter
untouched, so the counter matches the live non-terminal count only until a
task of that patient reaches a terminal state. -/
theorem tasks_count_total_invariant (ops : List TaskOp) (s : Store)
    (h : countsOk s) : countsOk (applyTaskOps ops s) := by
  induction ops generalizing s with
  | nil => exact h
  | cons op rest ih => exact ih (applyTaskOp s op) (applyTaskOp_countsOk s op h)

/-- An event touching a different patient changes neither the observed status
of `P` nor the absence of `P`-s extraction task. -/
theorem applyWEvent_unrelated (s : Store) (e : Workflow.WEvent) (P : Nat)
    (hne : Workflow.WEvent.pid e ≠ P) :
    statusOf (Workflow.applyWEvent s e) P = statusOf s P ∧
    (noExtractTask s P → noExtractTask (Workflow.applyWEvent s e) P) := by
  cases e with
  | docsCollected q =>
    have hq : q ≠ P := hne
    cases hdup : s.tasks.any (fun tk => tk._id == TaskId.extract q) with
    | true =>
      simp only [Workflow.applyWEvent,
        Workflow.trigger_documents_collected_workflow, hdup]
      exact ⟨rfl, fun hx => hx⟩
    | false =>
      have hdis : ∀ x : Patient, ((fun p : Patient => p._id == q) x) = true →
          ((fun p : Patient => p._id == P) x) = false ∧
          ((fun p : Patient => p._id == P)
            ((fun p : Patient => { p with status := "Doc Collection Done" }) x))
            = false := by
        intro x hx
        have hx2 : x._id = q := by simpa using hx
        exact ⟨by simp [hx2, hq], by simp [hx2, hq]⟩
      constructor
      · simp only [Workflow.applyWEvent,
          Workflow.trigger_documents_collected_workflow, hdup,
          Bool.false_eq_true, if_false, statusOf]
        rw [find?_updateFirst_disjoint _ _ _ hdis s.patients]
      · intro hext
        have hext2 : s.tasks.any (fun tk => tk._id == TaskId.extract P) = false :=
          hext
        show (Workflow.applyWEvent s (Workflow.WEvent.docsCollected q)).tasks.any
          (fun tk => tk._id == TaskId.extract P) = false
        simp only [Workflow.applyWEvent,
          Workflow.trigger_documents_collected_workflow, hdup,
          Bool.false_eq_true, if_false]
        rw [List.any_append]
        simp [hext2, Workflow.extractTask, hq]
  | patchStatus q st =>
    have hq : q ≠ P := hne
    have hdis : ∀ x : Patient, ((fun p : Patient => p._id == q) x) = true →
        ((fun p : Patient => p._id == P) x) = false ∧
        ((fun p : Patient => p._id == P)
          ((fun p : Patient => { p with status := st }) x)) = false := by
      intro x hx
      have hx2 : x._id = q := by simpa using hx
      exact ⟨by simp [hx2, hq], by simp [hx2, hq]⟩
    constructor
    · simp only [Workflow.applyWEvent, statusOf]
      rw [find?_updateFirst_disjoint _ _ _ hdis s.patients]
    · exact fun hx => hx

/-- Sequences of unrelated events preserve the status and extraction-task
absence of `P`. -/
theorem applyWEvents_unrelated (evs : List Workflow.WEvent) (s : Store) (P : Nat)
    (hall : ∀ e ∈ evs, Workflow.WEvent.pid e ≠ P) :
    statusOf (Workflow.applyWEvents evs s) P = statusOf s P ∧
    (noExtractTask s P → noExtractTask (Workflow.applyWEvents evs s) P) := by
  induction evs generalizing s with
  | nil => exact ⟨rfl, fun hx => hx⟩
  | cons e rest ih =>
    have h1 := applyWEvent_unrelated s e P (hall e (List.mem_cons_self e rest))
    have h2 := ih (Workflow.applyWEvent s e)
      (fun x hx => hall x (List.mem_cons_of_mem e hx))
    exact ⟨h2.1.trans h1.1, fun hx => h2.2 (h1.2 hx)⟩

/-- Processing the documents-collected event for a present patient whose
extraction task does not yet exist sets the status to `Doc Collection Done`. -/
theorem docsCollected_fires (s : Store) (P : Nat) (p : Patient)
    (hp : s.patients.find? (fun q => q._id == P) = some p)
    (hne : noExtractTask s P) :
    statusOf (Workflow.applyWEvent s (Workflow.WEvent.docsCollected P)) P
      = some "Doc Collection Done" := by
  have hne2 : s.tasks.any (fun tk => tk._id == TaskId.extract P) = false := hne
  simp only [Workflow.applyWEvent,
    Workflow.trigger_documents_collected_workflow, hne2,
    Bool.false_eq_true, if_false, statusOf]
  rw [find?_updateFirst_same (fun q : Patient => q._id == P)
    (fun q => { q with status := "Doc Collection Done" }) (fun x => rfl)
    s.patients, hp]
  rfl

/-- Once `P` reads `Doc Collection Done`, further events that are either the
documents-collected event for `P` itself or touch other patients keep it. -/
theorem applyWEvent_keeps_done (s : Store) (e : Workflow.WEvent) (P : Nat)
    (hok : e = Workflow.WEvent.docsCollected P ∨ Workflow.WEvent.pid e ≠ P)
    (hdone : statusOf s P = some "Doc Collection Done") :
    statusOf (Workflow.applyWEvent s e) P = some "Doc Collection Done" := by
  rcases hok with rfl | hne
  · cases hdup : s.tasks.any (fun tk => tk._id == TaskId.extract P) with
    | true =>
      simp only [Workflow.applyWEvent,
        Workflow.trigger_documents_collected_workflow, hdup]
      exact hdone
    | false =>
      have hp : ∃ p, s.patients.find? (fun q => q._id == P) = some p := by
        simp only [statusOf] at hdone
        cases hfp : s.patients.find? (fun q => q._id == P) with
        | none => rw [hfp] at hdone; cases hdone
        | some p => exact ⟨p, rfl⟩
      obtain ⟨p, hp⟩ := hp
      exact docsCollected_fires s P p hp hdup
  · exact (applyWEvent_unrelated s e P hne).1.trans hdone

theorem applyWEvents_keeps_done (evs : List Workflow.WEvent) (s : Store)
    (P : Nat)
    (hall : ∀ e ∈ evs, e = Workflow.WEvent.docsCollected P ∨
      Workflow.WEvent.pid e ≠ P)
    (hdone : statusOf s P = some "Doc Collection Done") :
    statusOf (Workflow.applyWEvents evs s) P = some "Doc Collection Done" := by
  induction evs generalizing s with
  | nil => exact hdone
  | cons e rest ih =>
    exact ih (Workflow.applyWEvent s e)
      (fun x hx => hall x (List.mem_cons_of_mem e hx))
      (applyWEvent_keeps_done s e P (hall e (List.mem_cons_self e rest)) hdone)

/-- Any run containing the documents-collected event for `P`, interleaved
only with events for other patients, ends with `P` in
`Doc Collection Done`. -/
theorem applyWEvents_reach_done (evs : List Workflow.WEvent) (s : Store)
    (P : Nat)
    (hp : ∃ p, s.patients.find? (fun q => q._id == P) = some p)
    (hne : noExtractTask s P)
    (hall : ∀ e ∈ evs, e = Workflow.WEvent.docsCollected P ∨
      Workflow.WEvent.pid e ≠ P)
    (hmem : Workflow.WEvent.docsCollected P ∈ evs) :
    statusOf (Workflow.applyWEvents evs s) P = some "Doc Collection Done" := by
  induction evs generalizing s with
  | nil => cases hmem
  | cons e rest ih =>
    rcases hall e (List.mem_cons_self e rest) with rfl | hneq
    · obtain ⟨p, hpp⟩ := hp
      exact applyWEvents_keeps_done rest _ P
        (fun x hx => hall x (List.mem_cons_of_mem _ hx))
        (docsCollected_fires s P p hpp hne)
    · have hu := applyWEvent_unrelated s e P hneq
      have hmem2 : Workflow.WEvent.docsCollected P ∈ rest := by
        rcases List.mem_cons.mp hmem with h1 | h2
        · exact absurd (congrArg Workflow.WEvent.pid h1.symm) (by simpa using hneq)
        · exact h2
      have hp2 : ∃ pp, (Workflow.applyWEvent s e).patients.find?
          (fun q => q._id == P) = some pp := by
        obtain ⟨p, hpp⟩ := hp
        have hst : statusOf (Workflow.applyWEvent s e) P = statusOf s P := hu.1
        have hsp : statusOf s P = some p.status := by simp [statusOf, hpp]
        rw [hsp] at hst
        simp only [statusOf] at hst
        cases hff : (Workflow.applyWEvent s e).patients.find?
            (fun q => q._id == P) with
        | none => rw [hff] at hst; cases hst
        | some pp => exact ⟨pp, rfl⟩
      exact ih (Workflow.applyWEvent s e) hp2 (hu.2 hne)
        (fun x hx => hall x (List.mem_cons_of_mem _ hx)) hmem2

/-- Claim C9: the documents-collected workflow unconditionally sets the
patient status to `Doc Collection Done`
(src/workflow_automation.py:95-98), so a patient in
`Doc Collection In Progress` ends in `Doc Collection Done` in every run
containing that event, and any two interleavings that differ only in events
for other patients agree on the resulting status. -/
theorem docs_collected_deterministic (s : Store) (P : Nat) (p : Patient)
    (evs evs2 : List Workflow.WEvent)
    (hp : s.patients.find? (fun q => q._id == P) = some p)
    (_hstat : p.status = "Doc Collection In Progress")
    (hne : noExtractTask s P)
    (hall : ∀ e ∈ evs, e = Workflow.WEvent.docsCollected P ∨
      Workflow.WEvent.pid e ≠ P)
    (hmem : Workflow.WEvent.docsCollected P ∈ evs)
    (hall2 : ∀ e ∈ evs2, e = Workflow.WEvent.docsCollected P ∨
      Workflow.WEvent.pid e ≠ P)
    (hmem2 : Workflow.WEvent.docsCollected P ∈ evs2) :
    statusOf (Workflow.applyWEvents evs s) P = some "Doc Collection Done" ∧
    statusOf (Workflow.applyWEvents evs s) P
      = statusOf (Workflow.applyWEvents evs2 s) P := by
  have h1 := applyWEvents_reach_done evs s P ⟨p, hp⟩ hne hall hmem
  have h2 := applyWEvents_reach_done evs2 s P ⟨p, hp⟩ hne hall2 hmem2
  exact ⟨h1, h1.trans h2.symm⟩

/-- Each status-carrying `update_insurance_claim` on an existing claim
appends exactly one event of that status and timestamp; folded over a list
of updates this yields the creation events followed by one event per
update, in order. -/
theorem applyClaimUpdates_events (cid : Nat) (us : List (Nat × String)) :
    ∀ s : Store,
    s.claims.any (fun c => c._id == cid && c.tenant_id == DEFAULT_TENANT)
      = true →
    (∀ u ∈ us, u.2 ≠ "") →
    (claimEventsOf (applyClaimUpdates cid us s) cid).map
        (fun e => (e.event_type, e.atTime))
      = (claimEventsOf s cid).map (fun e => (e.event_type, e.atTime))
        ++ us.map (fun u => (u.2, u.1)) := by
  induction us with
  | nil =>
    intro s hany hne
    simp [applyClaimUpdates]
  | cons u rest ih =>
    intro s hany hne
    obtain ⟨t, st⟩ := u
    have hstne : st ≠ "" := hne (t, st) (List.mem_cons_self _ _)
    have htr : truthy (some st) = some st := by simp [truthy, hstne]
    simp only [applyClaimUpdates, Mcp.update_insurance_claim, htr, hany, if_true]
    have hany2 : (updateFirst
        (fun c : Claim => c._id == cid && c.tenant_id == DEFAULT_TENANT)
        (fun c : Claim => { c with status := st, last_event_at := t })
        s.claims).any
        (fun c : Claim => c._id == cid && c.tenant_id == DEFAULT_TENANT)
        = true :=
      (updateFirst_any_invariant
        (fun c : Claim => c._id == cid && c.tenant_id == DEFAULT_TENANT)
        (fun c : Claim => { c with status := st, last_event_at := t })
        (fun c : Claim => c._id == cid && c.tenant_id == DEFAULT_TENANT)
        (fun x => rfl) s.claims).trans hany
    rw [ih _ hany2 (fun x hx => hne x (List.mem_cons_of_mem _ hx))]
    simp [claimEventsOf, List.filter_append, List.append_assoc]

/-- Claim C1: a claim created through `POST /api/claims` or the
`create_insurance_claim` tool starts with exactly the one initial
`submitted` event stamped at creation time; after N further
status-carrying `update_insurance_claim` calls at non-decreasing instants
it has exactly 1 + N events whose `at` stamps are non-decreasing in
insertion order. -/
theorem claim_audit_append_only (t0 : Nat) (data : ClaimCreate)
    (us : List (Nat × String)) (s : Store) (p : Patient)
    (hp : s.patients.find?
      (fun q => q._id == data.patient_id && q.tenant_id == DEFAULT_TENANT)
      = some p)
    (hfresh : ∀ e ∈ s.claimEvents, e.claim_id ≠ s.nextId)
    (hts : List.Chain (fun a b => a ≤ b) t0 (us.map Prod.fst))
    (hst : ∀ u ∈ us, u.2 ≠ "") :
    Server.create_claim t0 data s
      = Except.ok (s.nextId, createdClaimStore t0 data s) ∧
    Mcp.create_insurance_claim t0 data.patient_id data.amount s
      = Except.ok (s.nextId, createdClaimStore t0 data s) ∧
    (claimEventsOf (createdClaimStore t0 data s) s.nextId).map
        (fun e => (e.event_type, e.atTime)) = [("submitted", t0)] ∧
    (claimEventsOf (applyClaimUpdates s.nextId us
        (createdClaimStore t0 data s)) s.nextId).map
        (fun e => (e.event_type, e.atTime))
      = ("submitted", t0) :: us.map (fun u => (u.2, u.1)) ∧
    (claimEventsOf (applyClaimUpdates s.nextId us
        (createdClaimStore t0 data s)) s.nextId).length = 1 + us.length ∧
    List.Pairwise (fun a b => a ≤ b)
      ((claimEventsOf (applyClaimUpdates s.nextId us
        (createdClaimStore t0 data s)) s.nextId).map (fun e => e.atTime)) := by
  have hfreshf : ∀ e ∈ s.claimEvents,
      ((fun e : ClaimEvent => e.claim_id == s.nextId &&
        e.tenant_id == DEFAULT_TENANT) e) = false :=
    fun e he => by simp [hfresh e he]
  have hev1 : claimEventsOf (createdClaimStore t0 data s) s.nextId
      = [submittedEvent t0 s] := by
    simp only [claimEventsOf, createdClaimStore]
    rw [filter_append_left_none _ s.claimEvents _ hfreshf]
    simp [submittedEvent]
  have hany : (createdClaimStore t0 data s).claims.any
      (fun c => c._id == s.nextId && c.tenant_id == DEFAULT_TENANT) = true := by
    simp [createdClaimStore, List.any_append]
  have hfold := applyClaimUpdates_events s.nextId us
    (createdClaimStore t0 data s) hany hst
  rw [hev1] at hfold
  have hmap : (claimEventsOf (applyClaimUpdates s.nextId us
      (createdClaimStore t0 data s)) s.nextId).map
      (fun e => (e.event_type, e.atTime))
      = ("submitted", t0) :: us.map (fun u => (u.2, u.1)) := by
    rw [hfold]
    rfl
  have hmapat : (claimEventsOf (applyClaimUpdates s.nextId us
      (createdClaimStore t0 data s)) s.nextId).map (fun e => e.atTime)
      = t0 :: us.map Prod.fst := by
    have h2 := congrArg (List.map Prod.snd) hmap
    simp only [List.map_map] at h2
    rw [show ((fun e : ClaimEvent => e.atTime)
        = (Prod.snd ∘ fun e : ClaimEvent => (e.event_type, e.atTime))) from rfl,
      ← List.map_map, hmap]
    simp [List.map_map]
  refine ⟨?_, ?_, hev1 ▸ rfl, hmap, ?_, ?_⟩
  · simp only [Server.create_claim, hp, createdClaimStore, submittedEvent]
  · simp only [Mcp.create_insurance_claim, hp, createdClaimStore, submittedEvent]
  · have hlen := congrArg List.length hmap
    simp only [List.length_map, List.length_cons] at hlen
    rw [hlen]
    simp [Nat.add_comm]
  · rw [hmapat]
    exact List.chain_iff_pairwise.mp hts

/- ------------------------------------------------------------------ -/
/- Witnesses: each applies its claim theorem at concrete inputs.       -/
/- ------------------------------------------------------------------ -/

/-- Witness for the C1 theorem: Jane Doe-s claim with two status updates. -/
theorem claim_audit_append_only_witness :
    (claimEventsOf (applyClaimUpdates 1 [(11, "under_review"), (12, "approved")]
        (createdClaimStore 10 { patient_id := 0, amount := 250 }
          onePatientStore)) 1).length = 1 + 2 ∧
    (claimEventsOf (applyClaimUpdates 1 [(11, "under_review"), (12, "approved")]
        (createdClaimStore 10 { patient_id := 0, amount := 250 }
          onePatientStore)) 1).map (fun e => (e.event_type, e.atTime))
      = [("submitted", 10), ("under_review", 11), ("approved", 12)] :=
  ⟨(claim_audit_append_only 10 { patient_id := 0, amount := 250 }
      [(11, "under_review"), (12, "approved")] onePatientStore janeDoe
      (by decide) (by decide)
      (List.Chain.cons (by decide) (List.Chain.cons (by decide)
        List.Chain.nil))
      (by decide)).2.2.2.2.1,
   (claim_audit_append_only 10 { patient_id := 0, amount := 250 }
      [(11, "under_review"), (12, "approved")] onePatientStore janeDoe
      (by decide) (by decide)
      (List.Chain.cons (by decide) (List.Chain.cons (by decide)
        List.Chain.nil))
      (by decide)).2.2.2.1⟩

/-- Witness for the C2 amended theorem on a concrete trace. -/
theorem tasks_count_total_invariant_witness :
    countsOk (applyTaskOps
      [TaskOp.create { patient_id := 0, kind := none, priority := "medium" },
       TaskOp.update (TaskId.fresh 1) (some "done")] onePatientStore) :=
  tasks_count_total_invariant
    [TaskOp.create { patient_id := 0, kind := none, priority := "medium" },
     TaskOp.update (TaskId.fresh 1) (some "done")] onePatientStore
    ⟨by decide, by decide⟩

/-- Witness for the C3 amended theorem on the fixture appointment. -/
theorem completed_appointment_emits_witness :
    (Server.update_appointment 1 (some "completed") apptStore).toOption.map
      (fun s1 => (openTasksOfKind s1 0 "insurance_verification").length)
      = some ((openTasksOfKind apptStore 0 "insurance_verification").length
          + 1) :=
  completed_appointment_emits_every_time 1 apptStore
    { _id := 1, tenant_id := DEFAULT_TENANT, patient_id := 0,
      status := "scheduled" } janeDoe (by decide) (by decide)

/-- Witness for the C4 amended theorem: an amount-only and a status-carrying
update on the fixture claim. -/
theorem claim_event_appended_iff_status_witness :
    ((Mcp.update_insurance_claim 5 1 (some 100) none claimStore).toOption.map
      (fun s1 => s1.claimEvents) = some claimStore.claimEvents) ∧
    ((Mcp.update_insurance_claim 5 1 none (some "approved")
        claimStore).toOption.map
      (fun s1 => (claimEventsOf s1 1).map (fun e => (e.event_type, e.atTime)))
      = some ((claimEventsOf claimStore 1).map
          (fun e => (e.event_type, e.atTime)) ++ [("approved", 5)])) :=
  ⟨(claim_event_appended_iff_status 5 1 (some 100) none claimStore
      (by decide)).1 rfl,
   (claim_event_appended_iff_status 5 1 none (some "approved") claimStore
      (by decide)).2 "approved" (by decide)⟩

/-- Witness for the C5 amended theorem: Jane Doe on an empty store, email
reported successful. -/
theorem patient_creation_effects_witness :
    statusOf (Server.create_patient janeDoeCreate true emptyStore).2 0
      = some "Intake In Progress" ∧
    tasksCountOf (Server.create_patient janeDoeCreate true emptyStore).2 0
      = some 3 ∧
    ((Server.create_patient janeDoeCreate true emptyStore).2.tasks.filter
      (fun tk => tk.patient_id == 0)).map (fun tk => (tk.kind, tk.state))
      = [(some "consent_forms", "open"), (some "document_review", "open"),
         (some "welcome_email", if true then "done" else "in_progress")] :=
  ⟨(patient_creation_effects janeDoeCreate true emptyStore (by decide)
      (by decide) (by decide) (by decide)).2.1,
   (patient_creation_effects janeDoeCreate true emptyStore (by decide)
      (by decide) (by decide) (by decide)).2.2.1,
   (patient_creation_effects janeDoeCreate true emptyStore (by decide)
      (by decide) (by decide) (by decide)).2.2.2.2.1⟩

/-- Witness for the C6 amended theorem on a missing patient id. -/
theorem notfound_aborts_witness :
    Server.create_task { patient_id := 5, kind := none, priority := "low" }
      onePatientStore = Except.error DbError.notFound ∧
    (Server.create_appointment ({ patient_id := 5 } : AppointmentCreate)
      onePatientStore).2.appointments
      = onePatientStore.appointments ++
        [{ _id := 1, tenant_id := DEFAULT_TENANT, patient_id := 5,
           status := "scheduled" }] :=
  ⟨(notfound_aborts_without_write
      { patient_id := 5, kind := none, priority := "low" }
      { patient_id := 5, amount := 250 } 3 5 250 { patient_id := 5 }
      onePatientStore (by decide) (by decide) (by decide)).1,
   (notfound_aborts_without_write
      { patient_id := 5, kind := none, priority := "low" }
      { patient_id := 5, amount := 250 } 3 5 250 { patient_id := 5 }
      onePatientStore (by decide) (by decide) (by decide)).2.2.2⟩

/-- Witness for the C7 theorem at confidences 0.85 and 0.95. -/
theorem extraction_confidence_review_task_witness :
    (Server.trigger_document_extraction 1 (mkRat 85 100) docStore).tasks
      = docStore.tasks ++
        [{ _id := TaskId.fresh 2, tenant_id := DEFAULT_TENANT,
           patient_id := 0, kind := some "document_review", state := "open",
           priority := "high", confidence_score := mkRat 85 100,
           doc_id := some 1 }] ∧
    (Server.trigger_document_extraction 1 (mkRat 95 100) docStore).tasks
      = docStore.tasks :=
  ⟨((extraction_confidence_review_task 1 (mkRat 85 100) docStore
      { _id := 1, tenant_id := DEFAULT_TENANT, patient_id := 0, kind := "lab",
        status := "uploaded", extracted_confidence := none } janeDoe
      (by decide) (by decide)).1 (by decide)).1,
   ((extraction_confidence_review_task 1 (mkRat 95 100) docStore
      { _id := 1, tenant_id := DEFAULT_TENANT, patient_id := 0, kind := "lab",
        status := "uploaded", extracted_confidence := none } janeDoe
      (by decide) (by decide)).2 (by decide)).1⟩

/-- Witness for the C8 amended theorem on the fixture patient. -/
theorem summary_cache_behavior_witness :
    ∃ pay s1, Backend.get_patient_summary 0 0 onePatientStore
        = .ok (pay, s1) ∧
      pay.generated_at = 0 ∧
      Backend.get_patient_summary 1 0 s1 = .ok (pay, s1) ∧
      Backend.get_patient_summary 3599 0 s1 = .ok (pay, s1) ∧
      ∀ t3, 0 + Backend.TTL ≤ t3 →
        (Backend.get_patient_summary t3 0 s1).toOption.map
          (fun r => r.1.generated_at) = some t3 :=
  summary_cache_behavior 0 0 1 3599 onePatientStore janeDoe (by decide)
    (by decide) (by decide) (by decide)

/-- Witness for the C9 theorem: two interleavings around the
documents-collected event for the fixture patient. -/
theorem docs_collected_deterministic_witness :
    statusOf (Workflow.applyWEvents [Workflow.WEvent.patchStatus 5 "x",
        Workflow.WEvent.docsCollected 0] docCollStore) 0
      = some "Doc Collection Done" ∧
    statusOf (Workflow.applyWEvents [Workflow.WEvent.patchStatus 5 "x",
        Workflow.WEvent.docsCollected 0] docCollStore) 0
      = statusOf (Workflow.applyWEvents [Workflow.WEvent.docsCollected 0,
          Workflow.WEvent.patchStatus 7 "y"] docCollStore) 0 :=
  docs_collected_deterministic docCollStore 0
    { janeDoe with status := "Doc Collection In Progress" }
    [Workflow.WEvent.patchStatus 5 "x", Workflow.WEvent.docsCollected 0]
    [Workflow.WEvent.docsCollected 0, Workflow.WEvent.patchStatus 7 "y"]
    (by decide) (by decide) rfl (by decide) (by decide) (by decide)
    (by decide)

end BMD
